import Mathlib

/-!
Shallow embedding of the numerauto round-lifecycle daemon, translated from
src/numerauto/numerauto.py and src/numerauto/eventhandlers.py.

External collaborators are modelled as explicit inputs:
the dataset comparison oracle check_dataset (imported from numerauto.utils,
outside this repository) is a parameter of type Nat → Nat → Bool giving the
result of comparing the dataset of one round against another; each call to
download_and_check consumes a scripted FetchOutcome describing what the
NumerAPI download and the subsequent validation produced; samples of the
asynchronous exit_requested flag are scripted at exactly the program points
where the Python code reads the flag.  Raising a Python exception is
modelled with Except (for functions that the surrounding code can observe
failing) or with a dedicated result constructor.  Persisting the state with
save_state is recorded as an explicit DaemonAction in the emitted action trace,
carrying the exact state that was written.
-/

/-- Persistent daemon state, mirroring the dictionary written by
Numerauto.save_state: the two nullable round-number checkpoints. -/
structure PState where
  last_round_processed : Option Nat
  last_round_trained : Option Nat
  deriving DecidableEq, Repr

/-- Observable actions of the round cycle: the three per-round event
dispatches and each save_state call (with the state that was written). -/
inductive DaemonAction where
  | onRoundBegin (round_number : Nat)
  | onNewTrainingData (round_number : Nat)
  | onNewTournamentData (round_number : Nat)
  | saveState (state : PState)
  deriving DecidableEq, Repr

/-- Embeds Numerauto.check_new_training_data (numerauto.py lines 125-139):
true when last_round_trained is not set, otherwise the result of the
check_dataset comparison of the training file of the last trained round
against the training file of the given round. -/
def check_new_training_data (check_dataset : Nat → Nat → Bool)
    (state : PState) (round_number : Nat) : Bool :=
  match state.last_round_trained with
  | none => true
  | some last_trained => check_dataset last_trained round_number

/-- Embeds Numerauto.on_round_begin_internal (numerauto.py lines 141-157):
dispatch on_round_begin, then when check_new_training_data holds dispatch
on_new_training_data, set last_round_trained and save the state, then
dispatch on_new_tournament_data.  Returns the updated state and the action
trace in execution order.  Handler-level dispatch (the for loop inside each
dispatcher) is modelled separately by on_round_begin below. -/
def on_round_begin_internal (check_dataset : Nat → Nat → Bool)
    (state : PState) (round_number : Nat) : PState × List DaemonAction :=
  if check_new_training_data check_dataset state round_number then
    let state1 : PState := { state with last_round_trained := some round_number }
    (state1, [DaemonAction.onRoundBegin round_number,
              DaemonAction.onNewTrainingData round_number,
              DaemonAction.saveState state1,
              DaemonAction.onNewTournamentData round_number])
  else
    (state, [DaemonAction.onRoundBegin round_number,
             DaemonAction.onNewTournamentData round_number])

/-- Embeds the tail of Numerauto.run_new_round (numerauto.py lines 325-332):
once the retry loop has been left, call on_round_begin_internal, set
last_round_processed to the current round and save the state. -/
def process_round (check_dataset : Nat → Nat → Bool)
    (state : PState) (round_number : Nat) : PState × List DaemonAction :=
  let step1 := on_round_begin_internal check_dataset state round_number
  let state2 : PState := { step1.1 with last_round_processed := some round_number }
  (state2, step1.2 ++ [DaemonAction.saveState state2])

/-- Outcome of one download_and_check attempt as seen from the try block in
numerauto.py lines 282-294: either the download succeeded, assigning
dataset_path and yielding a validation verdict, or a
requests.RequestException was raised (leaving dataset_path unassigned) and
caught, yielding valid = False. -/
inductive FetchOutcome where
  | downloaded (path : String) (valid : Bool)
  | requestException
  deriving DecidableEq, Repr

/-- Embeds Numerauto.download_and_check (numerauto.py lines 272-296) acting
on the dataset_path attribute: a successful download sets dataset_path and
returns the validation verdict; a caught requests.RequestException leaves
dataset_path unchanged and returns false. -/
def download_and_check (dataset_path : Option String) (outcome : FetchOutcome) :
    Option String × Bool :=
  match outcome with
  | FetchOutcome.downloaded p v => (some p, v)
  | FetchOutcome.requestException => (dataset_path, false)

/-- Scripted environment for one iteration of the retry loop in
run_new_round: the value of exit_requested read at the while condition, the
value read at the check after the 10 minute interruptible_wait, and the
outcome of the download_and_check call that ends the iteration. -/
structure RetryStep where
  exit_at_loop_check : Bool
  exit_after_wait : Bool
  next_outcome : FetchOutcome
  deriving DecidableEq, Repr

/-- Result of run_new_round: the round was processed (with final state,
final dataset_path and the emitted action trace), or the function returned
at the post-wait cancellation check, or an uncaught exception propagated,
or the finite script was exhausted while the loop was still running. -/
inductive RunResult where
  | completed (state : PState) (dataset_path : Option String) (actions : List DaemonAction)
  | cancelled (state : PState) (dataset_path : Option String)
  | raised (message : String)
  | scriptExhausted
  deriving DecidableEq, Repr

/-- Embeds the retry loop of Numerauto.run_new_round (numerauto.py lines
310-332) after the first download_and_check produced the given valid flag.
The while condition is evaluated with the Python short-circuit order: valid
data leaves the loop without reading exit_requested; otherwise the scripted
flag sample decides.  Leaving the loop, for either reason, falls through to
process_round.  Inside the loop body the cleanup branch runs
os.remove(self.dataset_path): since the attribute is set to None in
Numerauto.init, hasattr is always true, and when dataset_path is still None
the call raises an uncaught TypeError.  Cleanup of an actual path string is
abstracted as succeeding (the filesystem is not modelled). -/
def run_retry_loop (check_dataset : Nat → Nat → Bool) (state : PState)
    (round_number : Nat) :
    Option String → Bool → List RetryStep → RunResult
  | dataset_path, true, _ =>
    let pr := process_round check_dataset state round_number
    RunResult.completed pr.1 dataset_path pr.2
  | _, false, [] => RunResult.scriptExhausted
  | dataset_path, false, step :: rest =>
    if step.exit_at_loop_check then
      let pr := process_round check_dataset state round_number
      RunResult.completed pr.1 dataset_path pr.2
    else
      match dataset_path with
      | none => RunResult.raised "TypeError: os.remove called with None"
      | some p =>
        if step.exit_after_wait then RunResult.cancelled state (some p)
        else
          let next := download_and_check (some p) step.next_outcome
          run_retry_loop check_dataset state round_number next.1 next.2 rest

/-- Embeds Numerauto.run_new_round (numerauto.py lines 299-332): perform
the first download_and_check, then enter the retry loop. -/
def run_new_round (check_dataset : Nat → Nat → Bool) (state : PState)
    (dataset_path : Option String) (round_number : Nat)
    (first_outcome : FetchOutcome) (script : List RetryStep) : RunResult :=
  let first := download_and_check dataset_path first_outcome
  run_retry_loop check_dataset state round_number first.1 first.2 script

/-- Stored checkpoint record as unpickled from state.pickle: a dictionary
in which each of the two keys may be absent (outer none) or present with a
nullable round number. -/
structure StoredRecord where
  last_round_processed : Option (Option Nat)
  last_round_trained : Option (Option Nat)
  deriving DecidableEq, Repr

/-- Outcome of opening and unpickling state.pickle: the file is missing
(FileNotFoundError), the pickle stream is truncated (EOFError), the
contents are otherwise corrupt (pickle.UnpicklingError), or a record was
read. -/
inductive ReadOutcome where
  | fileNotFound
  | eofError
  | unpicklingError
  | record (r : StoredRecord)
  deriving DecidableEq, Repr

/-- Embeds Numerauto.load_state (numerauto.py lines 335-359): catch
FileNotFoundError and EOFError by starting from an empty dictionary, then
fill in each absent key with None.  Any other exception from pickle.load,
such as pickle.UnpicklingError on corrupt contents, is not caught and
propagates. -/
def load_state (outcome : ReadOutcome) : Except String PState :=
  match outcome with
  | ReadOutcome.fileNotFound =>
      Except.ok { last_round_processed := none, last_round_trained := none }
  | ReadOutcome.eofError =>
      Except.ok { last_round_processed := none, last_round_trained := none }
  | ReadOutcome.unpicklingError => Except.error "pickle.UnpicklingError"
  | ReadOutcome.record r =>
      Except.ok
        { last_round_processed :=
            match r.last_round_processed with
            | none => none
            | some v => v,
          last_round_trained :=
            match r.last_round_trained with
            | none => none
            | some v => v }

/-- Embeds the per-iteration wait computation of
Numerauto.wait_till_next_round (numerauto.py lines 214-222): from the
number of seconds until the round close time, compute seconds_wait as that
number plus 5; when seconds_wait exceeds 360 wait seconds_wait minus 360
seconds, otherwise wait min seconds_wait 60 seconds. -/
def wait_till_next_round_interval (seconds_to_close : Int) : Int :=
  let seconds_wait := seconds_to_close + 5
  if seconds_wait > 360 then seconds_wait - 360 else min seconds_wait 60

/-- Embeds the startup catch-up condition of Numerauto.run (numerauto.py
lines 401-403): run_new_round is invoked when last_round_processed is
None, or last_round_trained is None, or the current round number exceeds
last_round_processed. -/
def run_catchup_check (state : PState) (round_number : Nat) : Bool :=
  match state.last_round_processed, state.last_round_trained with
  | none, _ => true
  | some _, none => true
  | some p, some _ => decide (round_number > p)

/-- Modelled from the spec for comparison with run_catchup_check: the
catch-up condition as the claim words it, namely last_round_processed is
null or the current round number exceeds it. -/
def catchup_check_claim (state : PState) (round_number : Nat) : Bool :=
  match state.last_round_processed with
  | none => true
  | some p => decide (round_number > p)

/-- Invariant claimed by the spec for PState: last_round_trained is null,
or last_round_processed is null, or trained is at most processed. -/
def state_invariant (state : PState) : Bool :=
  match state.last_round_trained, state.last_round_processed with
  | some t, some p => decide (t ≤ p)
  | _, _ => true

/-- Event handler as seen by the dispatch loops in numerauto.py: a name
and the on_round_begin method body, which either returns (ok) or raises an
exception with a message. -/
structure MHandler where
  name : String
  on_round_begin : Nat → Except String Unit

/-- Embeds the dispatcher Numerauto.on_round_begin (numerauto.py lines
104-109): a plain for loop calling h.on_round_begin on every registered
handler, with no exception handling.  Returns the names of the handlers
whose method was invoked, in order, together with the message of the
propagating exception when one was raised (none when the loop completed).
The other four dispatchers have the same loop shape. -/
def on_round_begin (round_number : Nat) : List MHandler → List String × Option String
  | [] => ([], none)
  | h :: rest =>
    match h.on_round_begin round_number with
    | Except.ok _ =>
      let tail := on_round_begin round_number rest
      (h.name :: tail.1, tail.2)
    | Except.error msg => ([h.name], some msg)

/-- Embeds Numerauto.add_event_handler (numerauto.py lines 65-74): append
the handler to the list, with no name check of any kind.  The
back-reference assignment handler.numerauto = self is not modelled. -/
def add_event_handler (event_handlers : List MHandler) (handler : MHandler) :
    List MHandler :=
  event_handlers ++ [handler]

/-- Embeds the name validation of EventHandler.init (eventhandlers.py
lines 32-44): an empty name raises ValueError, otherwise the name is
accepted. -/
def EventHandler_init (name : String) : Except String String :=
  if name = "" then Except.error "Name can not be empty" else Except.ok name

/-- Concrete handler named a whose on_round_begin returns normally. -/
def handlerA : MHandler :=
  { name := "a", on_round_begin := fun _ => Except.ok () }

/-- Concrete handler, also named a, used to exhibit duplicate
registration. -/
def handlerADup : MHandler :=
  { name := "a", on_round_begin := fun _ => Except.ok () }

/-- Concrete handler named a whose on_round_begin raises. -/
def handlerARaise : MHandler :=
  { name := "a", on_round_begin := fun _ => Except.error "boom" }

/-- Concrete handler named b whose on_round_begin returns normally. -/
def handlerB : MHandler :=
  { name := "b", on_round_begin := fun _ => Except.ok () }

/-- Helper for the retry loop: whenever the loop returns through the
post-wait cancellation check, the returned state is exactly the state the
loop was entered with (no event was dispatched and no checkpoint field was
updated on that path). -/
theorem run_retry_loop_cancelled_state (check_dataset : Nat → Nat → Bool)
    (s : PState) (rn : Nat) :
    ∀ (script : List RetryStep) (dp : Option String) (valid : Bool)
      (s2 : PState) (dp2 : Option String),
      run_retry_loop check_dataset s rn dp valid script = RunResult.cancelled s2 dp2 →
      s2 = s := by
  intro script
  induction script with
  | nil =>
    intro dp valid s2 dp2 h
    cases valid <;> simp [run_retry_loop] at h
  | cons step rest ih =>
    intro dp valid s2 dp2 h
    cases valid with
    | true => simp [run_retry_loop] at h
    | false =>
      cases he : step.exit_at_loop_check with
      | true => simp [run_retry_loop, he] at h
      | false =>
        cases dp with
        | none => simp [run_retry_loop, he] at h
        | some p =>
          cases hw : step.exit_after_wait with
          | true =>
            simp [run_retry_loop, he, hw] at h
            exact h.1.symm
          | false =>
            simp [run_retry_loop, he, hw] at h
            exact ih _ _ _ _ h

/-- C1: in run_new_round, once the fetched dataset is validated, the steps
occur in exactly this order: dispatch on_round_begin, then determine new
training data (true when last_round_trained is null, otherwise the
check_dataset comparison of the last trained round against the current
round), and only when true dispatch on_new_training_data, set
last_round_trained to the round number and persist that state before any
later event; then dispatch on_new_tournament_data unconditionally; finally
set last_round_processed to the round number and persist.  When the
comparison reports no new data, on_new_training_data is absent from the
trace and last_round_trained is unchanged. -/
theorem numerauto_C1_event_order (check_dataset : Nat → Nat → Bool) (s : PState)
    (rn : Nat) (dp : Option String) (script : List RetryStep) :
    run_retry_loop check_dataset s rn dp true script =
      RunResult.completed
        ⟨some rn,
         if (match s.last_round_trained with
             | none => true
             | some t => check_dataset t rn) then some rn else s.last_round_trained⟩
        dp
        ([DaemonAction.onRoundBegin rn] ++
         (if (match s.last_round_trained with
              | none => true
              | some t => check_dataset t rn) then
            [DaemonAction.onNewTrainingData rn,
             DaemonAction.saveState ⟨s.last_round_processed, some rn⟩]
          else []) ++
         [DaemonAction.onNewTournamentData rn,
          DaemonAction.saveState
            ⟨some rn,
             if (match s.last_round_trained with
                 | none => true
                 | some t => check_dataset t rn) then some rn
             else s.last_round_trained⟩]) := by
  obtain ⟨sp, st⟩ := s
  cases st with
  | none =>
    simp [run_retry_loop, process_round, on_round_begin_internal, check_new_training_data]
  | some t =>
    cases hc : check_dataset t rn <;>
      simp [run_retry_loop, process_round, on_round_begin_internal,
            check_new_training_data, hc]

/-- C2 counterexample: with a first registered handler named a whose
on_round_begin raises and a second registered handler named b, the
dispatch loop invokes only the first handler; the exception propagates
(aborting the dispatch and the round cycle) and handler b is never
invoked, contrary to the claim. -/
theorem numerauto_C2_cx :
    on_round_begin 7 [handlerARaise, handlerB] = (["a"], some "boom") ∧
    "b" ∉ (on_round_begin 7 [handlerARaise, handlerB]).1 := by
  refine ⟨rfl, ?_⟩
  decide

/-- C2 amended: the dispatch loop invokes handlers in registration order;
when every handler returns normally all handlers are invoked in order and
no exception escapes, but a handler that raises stops the dispatch at that
handler: the handlers registered after it are not invoked in that
dispatch, and the exception propagates out of the dispatcher (there is no
per-handler exception isolation in the code). -/
theorem numerauto_C2_dispatch_order :
    (∀ (rn : Nat) (hs : List MHandler),
      (∀ h ∈ hs, h.on_round_begin rn = Except.ok ()) →
      on_round_begin rn hs = (hs.map MHandler.name, none)) ∧
    (∀ (rn : Nat) (pre : List MHandler) (bad : MHandler) (post : List MHandler)
       (msg : String),
      (∀ h ∈ pre, h.on_round_begin rn = Except.ok ()) →
      bad.on_round_begin rn = Except.error msg →
      on_round_begin rn (pre ++ bad :: post) =
        (pre.map MHandler.name ++ [bad.name], some msg)) := by
  constructor
  · intro rn hs
    induction hs with
    | nil => intro _; rfl
    | cons h t ih =>
      intro hok
      have hh := hok h (List.mem_cons_self h t)
      have ht := fun x hx => hok x (List.mem_cons_of_mem h hx)
      simp [on_round_begin, hh, ih ht]
  · intro rn pre
    induction pre with
    | nil =>
      intro bad post msg _ hbad
      simp [on_round_begin, hbad]
    | cons h t ih =>
      intro bad post msg hok hbad
      have hh := hok h (List.mem_cons_self h t)
      have ht := fun x hx => hok x (List.mem_cons_of_mem h hx)
      simp [on_round_begin, hh, ih bad post msg ht hbad]

/-- C2 witness: dispatching to two well-behaved handlers invokes both in
registration order with no escaping exception. -/
theorem numerauto_C2_dispatch_order_witness :
    on_round_begin 3 [handlerA, handlerB] = (["a", "b"], none) := by
  have hok : ∀ h ∈ [handlerA, handlerB], MHandler.on_round_begin h 3 = Except.ok () := by
    intro x hx
    rcases List.mem_cons.mp hx with rfl | hx2
    · rfl
    · rcases List.mem_cons.mp hx2 with rfl | hx3
      · rfl
      · exact absurd hx3 (List.not_mem_nil x)
  have h := numerauto_C2_dispatch_order.1 3 [handlerA, handlerB] hok
  simpa [handlerA, handlerB] using h

/-- C3 counterexample: cancellation asserted while the download attempt is
in progress is first observed at the retry-loop condition; with the
attempt judged invalid, the loop exits and run_new_round nevertheless
dispatches all round events and updates both checkpoint fields, contrary
to the claim that it returns without dispatching and without updating. -/
theorem numerauto_C3_cx :
    run_new_round (fun _ _ => true) ⟨some 100, some 100⟩ (some "old") 101
        (FetchOutcome.downloaded "p" false)
        [⟨true, false, FetchOutcome.requestException⟩] =
      RunResult.completed ⟨some 101, some 101⟩ (some "p")
        [DaemonAction.onRoundBegin 101,
         DaemonAction.onNewTrainingData 101,
         DaemonAction.saveState ⟨some 100, some 101⟩,
         DaemonAction.onNewTournamentData 101,
         DaemonAction.saveState ⟨some 101, some 101⟩] := by
  decide

/-- C3 amended: whenever run_new_round returns through the cancellation
check that follows the 10 minute retry wait, it returns with the state it
was entered with, dispatching no events and updating neither checkpoint
field; in particular a first invalid fetch followed by cancellation
observed after the wait returns cancelled with the original state. -/
theorem numerauto_C3_cancelled_keeps_state :
    (∀ (check_dataset : Nat → Nat → Bool) (s : PState) (dp0 : Option String)
       (rn : Nat) (first : FetchOutcome) (script : List RetryStep)
       (s2 : PState) (dp2 : Option String),
      run_new_round check_dataset s dp0 rn first script = RunResult.cancelled s2 dp2 →
      s2 = s) ∧
    (∀ (check_dataset : Nat → Nat → Bool) (s : PState) (dp0 : Option String)
       (rn : Nat) (first : FetchOutcome) (st : RetryStep) (rest : List RetryStep)
       (p : String),
      download_and_check dp0 first = (some p, false) →
      st.exit_at_loop_check = false →
      st.exit_after_wait = true →
      run_new_round check_dataset s dp0 rn first (st :: rest) =
        RunResult.cancelled s (some p)) := by
  constructor
  · intro check_dataset s dp0 rn first script s2 dp2 h
    exact run_retry_loop_cancelled_state check_dataset s rn script _ _ s2 dp2 h
  · intro check_dataset s dp0 rn first st rest p h1 h2 h3
    simp [run_new_round, h1, run_retry_loop, h2, h3]

/-- C3 witness: a first invalid download followed by cancellation observed
after the retry wait makes run_new_round return cancelled with the
original state and no dispatched actions. -/
theorem numerauto_C3_cancelled_keeps_state_witness :
    run_new_round (fun _ _ => true) ⟨some 100, some 100⟩ none 101
        (FetchOutcome.downloaded "q" false)
        [⟨false, true, FetchOutcome.requestException⟩] =
      RunResult.cancelled ⟨some 100, some 100⟩ (some "q") :=
  numerauto_C3_cancelled_keeps_state.2 (fun _ _ => true) ⟨some 100, some 100⟩ none 101
    (FetchOutcome.downloaded "q" false) ⟨false, true, FetchOutcome.requestException⟩ []
    "q" rfl rfl rfl

/-- C4 counterexample: a stored checkpoint record whose contents are
corrupt without being a truncated stream raises pickle.UnpicklingError out
of load_state instead of yielding a fresh state, contrary to the claim
that load never raises on unreadable contents. -/
theorem numerauto_C4_cx :
    load_state ReadOutcome.unpicklingError = Except.error "pickle.UnpicklingError" ∧
    load_state ReadOutcome.unpicklingError ≠ Except.ok ⟨none, none⟩ := by
  constructor
  · rfl
  · intro h
    simp [load_state] at h

/-- C4 amended: load_state returns a fresh state with both checkpoint
fields null when the checkpoint file is absent (FileNotFoundError) or its
contents are truncated (EOFError); corrupt contents that raise any other
exception, such as pickle.UnpicklingError, propagate uncaught. -/
theorem numerauto_C4_fresh_on_missing_or_truncated :
    load_state ReadOutcome.fileNotFound = Except.ok ⟨none, none⟩ ∧
    load_state ReadOutcome.eofError = Except.ok ⟨none, none⟩ := ⟨rfl, rfl⟩

/-- C5 counterexample: processing round 101 from the fully processed state
of round 100 with new training data persists the intermediate state with
last_round_trained 101 while last_round_processed is still 100, so the
claimed invariant is violated at that persist point. -/
theorem numerauto_C5_cx :
    DaemonAction.saveState ⟨some 100, some 101⟩ ∈
      (process_round (fun _ _ => true) ⟨some 100, some 100⟩ 101).2 ∧
    state_invariant ⟨some 100, some 101⟩ = false := by
  decide

/-- C5 amended: the invariant (last_round_trained null, or
last_round_processed null, or trained at most processed) holds for the
final state persisted at the end of each completed round, provided the
previously trained round does not exceed the round being processed; at the
intermediate persist inside the training step the invariant can fail,
because last_round_trained is set to the current round while
last_round_processed still names the previous round. -/
theorem numerauto_C5_invariant_after_round (check_dataset : Nat → Nat → Bool)
    (s : PState) (rn : Nat)
    (h : ∀ t, s.last_round_trained = some t → t ≤ rn) :
    state_invariant (process_round check_dataset s rn).1 = true := by
  obtain ⟨sp, st⟩ := s
  cases st with
  | none =>
    simp [process_round, on_round_begin_internal, check_new_training_data,
          state_invariant]
  | some t =>
    have ht : t ≤ rn := h t rfl
    cases hc : check_dataset t rn <;>
      simp [process_round, on_round_begin_internal, check_new_training_data, hc,
            state_invariant, ht]

/-- C5 witness: processing round 5 from the state that trained round 3,
with the comparison reporting no new data, ends in a state satisfying the
invariant. -/
theorem numerauto_C5_invariant_after_round_witness :
    state_invariant (process_round (fun _ _ => false) ⟨some 3, some 3⟩ 5).1 = true :=
  numerauto_C5_invariant_after_round (fun _ _ => false) ⟨some 3, some 3⟩ 5
    (by
      intro t ht
      have h3 : (3 : Nat) = t := by simpa using ht
      omega)

/-- C6 counterexample: with last_round_processed 100, last_round_trained
null and current round 100, the code runs the startup catch-up although
the claimed condition (no round processed, or current round exceeds
last_round_processed) is false. -/
theorem numerauto_C6_cx :
    run_catchup_check ⟨some 100, none⟩ 100 = true ∧
    catchup_check_claim ⟨some 100, none⟩ 100 = false := by
  decide

/-- C6 amended: the startup catch-up runs if and only if
last_round_processed is null, or last_round_trained is null, or the
current round number exceeds last_round_processed. -/
theorem numerauto_C6_catchup_iff (s : PState) (rn : Nat) :
    run_catchup_check s rn = true ↔
      s.last_round_processed = none ∨ s.last_round_trained = none ∨
        ∃ p, s.last_round_processed = some p ∧ rn > p := by
  obtain ⟨sp, st⟩ := s
  cases sp <;> cases st <;> simp [run_catchup_check]

/-- C6 witness: a state with no processed round triggers the catch-up. -/
theorem numerauto_C6_catchup_iff_witness :
    run_catchup_check ⟨none, some 3⟩ 5 = true :=
  (numerauto_C6_catchup_iff ⟨none, some 3⟩ 5).mpr (Or.inl rfl)

/-- C7 counterexample: with 600 seconds (10 minutes) to the close time the
computed wait is 245 seconds, so the sleep ends 355 seconds before the
close time, not exactly 360 seconds (6 minutes) before it as claimed. -/
theorem numerauto_C7_cx :
    wait_till_next_round_interval 600 = 245 ∧
    ¬(600 - wait_till_next_round_interval 600 = 360) := by
  decide

/-- C7 amended: when more than 355 seconds remain before the close time
the sleep lasts the remaining time minus 355 seconds, ending 355 seconds
(5 minutes 55 seconds) before the close time; otherwise the sleep is
min(remaining + 5, 60) seconds.  With 10 minutes to close the computed
wait is 245 seconds (roughly 4 minutes); with 2 minutes to close it is 60
seconds. -/
theorem numerauto_C7_interval_policy (r : Int) :
    wait_till_next_round_interval r = (if r > 355 then r - 355 else min (r + 5) 60) ∧
    wait_till_next_round_interval 600 = 245 ∧
    wait_till_next_round_interval 120 = 60 := by
  refine ⟨?_, by decide, by decide⟩
  simp only [wait_till_next_round_interval]
  by_cases h1 : r + 5 > 360
  · rw [if_pos h1, if_pos (show r > 355 by omega)]
    omega
  · rw [if_neg h1, if_neg (show ¬r > 355 by omega)]

/-- C8: the claim that the cleanup-on-invalid-retry path never raises is
contradicted by the code at a concrete input: on a fresh daemon whose
first download attempt raises requests.RequestException, dataset_path is
still None when the retry loop cleans up, hasattr is vacuously true
because Numerauto. init sets the attribute to None, and os.remove(None)
raises an uncaught TypeError that ends the cycle. -/
theorem numerauto_C8_cleanup_raises :
    run_new_round (fun _ _ => true) ⟨none, none⟩ none 57 FetchOutcome.requestException
        [⟨false, false, FetchOutcome.requestException⟩] =
      RunResult.raised "TypeError: os.remove called with None" := by
  decide

/-- C9 counterexample: registering a second handler whose name duplicates
an already registered handler simply appends it; both handlers named a end
up registered and no error of any kind is raised (add_event_handler is a
total function into the handler list, and no DuplicateNameError exists in
the code). -/
theorem numerauto_C9_cx :
    (add_event_handler (add_event_handler [] handlerA) handlerADup).map MHandler.name =
      ["a", "a"] ∧
    (add_event_handler (add_event_handler [] handlerA) handlerADup).length = 2 :=
  ⟨rfl, rfl⟩

/-- C9 amended: constructing a handler with an empty name fails
immediately with a descriptive ValueError, while any nonempty name is
accepted; registration itself performs no name check whatsoever and
appends unconditionally, so a duplicate name is silently accepted. -/
theorem numerauto_C9_registration :
    EventHandler_init "" = Except.error "Name can not be empty" ∧
    (∀ name : String, name ≠ "" → EventHandler_init name = Except.ok name) ∧
    (∀ (hs : List MHandler) (h : MHandler), add_event_handler hs h = hs ++ [h]) := by
  refine ⟨rfl, ?_, fun _ _ => rfl⟩
  intro name hname
  simp [EventHandler_init, hname]

/-- C9 witness: a nonempty handler name is accepted at construction. -/
theorem numerauto_C9_registration_witness :
    EventHandler_init "model" = Except.ok "model" :=
  numerauto_C9_registration.2.1 "model" (by decide)

/-- C10: the state returned by load_state always contains both checkpoint
fields, and the fields degrade independently: when the stored record
deserializes but lacks one of the two keys, only the missing key is set to
null and the stored value of the key that is present is preserved. -/
theorem numerauto_C10_fields_degrade_independently (p t : Option (Option Nat))
    (s : PState)
    (hload : load_state (ReadOutcome.record ⟨p, t⟩) = Except.ok s) :
    (p = none → s.last_round_processed = none) ∧
    (∀ v, p = some v → s.last_round_processed = v) ∧
    (t = none → s.last_round_trained = none) ∧
    (∀ v, t = some v → s.last_round_trained = v) := by
  obtain ⟨sp, st⟩ := s
  cases p <;> cases t <;>
    · simp only [load_state, Except.ok.injEq, PState.mk.injEq] at hload
      obtain ⟨h1, h2⟩ := hload
      subst h1
      subst h2
      simp

/-- C10 witness: a record holding last_round_processed 7 and lacking the
last_round_trained key loads to a state preserving the 7 and defaulting
the trained field to null. -/
theorem numerauto_C10_fields_degrade_independently_witness :
    (⟨some 7, none⟩ : PState).last_round_processed = some 7 ∧
    (⟨some 7, none⟩ : PState).last_round_trained = none :=
  ⟨(numerauto_C10_fields_degrade_independently (some (some 7)) none ⟨some 7, none⟩
      rfl).2.1 (some 7) rfl,
   (numerauto_C10_fields_degrade_independently (some (some 7)) none ⟨some 7, none⟩
      rfl).2.2.1 rfl⟩
